import Mathlib

/-!
Verification of the Comtrade download orchestrator
(`code/04_download_comtrade.py` and `code/05_download_comtrade.py`).

The scripts are shallowly embedded: the outside world (the HTTP transport
plus the remote server) is modelled as a list of `HttpEvent`s consumed in
order, one per `requests.get` call; the process-global `call_counter` and
the sequence of requests actually issued are threaded through a
`WorldState`. Rows of the pandas DataFrames are abstracted to an opaque
payload plus the one column the scripts themselves set
(`partner_country`).
-/

/-- A row-record of the remote JSON `data` array / of a DataFrame. The
payload abstracts the row's trade fields; `partner_country` models the
column added by `df['partner_country'] = country_name` in `main`
(absent, i.e. `none`, on rows as fetched). -/
structure Row where
  payload : Nat
  partner_country : Option String
deriving DecidableEq, Repr

/-- A freshly fetched row: payload only, no `partner_country` column. -/
def mkRow (n : Nat) : Row := ⟨n, none⟩

/-- What `response.json()` yields for a 200 response in `download_year`:
the call can raise (caught by the bare `except`), parse to an object
without a usable `data` array, or parse to an object with a `data` array
of rows. -/
inductive JsonBody where
  | parseError : JsonBody
  | noData : JsonBody
  | withData : List Row → JsonBody
deriving DecidableEq, Repr

/-- One `requests.get` round-trip as seen by `download_year`: either a
response with a status code and a JSON body, or an exception raised by
`requests.get` itself (network error, timeout) before any response is
obtained. -/
inductive HttpEvent where
  | resp : Nat → JsonBody → HttpEvent
  | netErr : HttpEvent
deriving DecidableEq, Repr

/-- The parameters of one remote call, as placed in `params` by
`download_year` (the year is `period`). -/
structure FetchRequest where
  reporter : String
  partner : String
  period : Nat
  flow : String
  cmdCode : String
deriving DecidableEq, Repr

/-- The state threaded through a run: the not-yet-consumed world events,
the process-global `call_counter`, and the trace of requests issued so
far (one entry per `requests.get` call, oldest first). -/
structure WorldState where
  events : List HttpEvent
  counter : Nat
  trace : List FetchRequest
deriving DecidableEq, Repr

/-- Number of events that are responses (as opposed to transport
exceptions): exactly the round-trips after which line
`call_counter += 1` runs. -/
def countResp : List HttpEvent → Nat
  | [] => 0
  | HttpEvent.resp _ _ :: rest => countResp rest + 1
  | HttpEvent.netErr :: rest => countResp rest

/-- `max_calls = 500` (module-level constant of both scripts). -/
def max_calls : Nat := 500

/-- The inline quota check `call_counter >= max_calls - 50` used at line
85 of `04_download_comtrade.py` (line 84 of `05_...`) and between the
second and third dataset runs of `main`. -/
def nearLimitCheck (counter : Nat) : Bool := decide (max_calls - 50 ≤ counter)

/-- The spec's QuotaTracker predicate, written from the spec's words:
`isNearLimit(callsMade, maxCalls, reserve)` is true when
`callsMade >= maxCalls - reserve` (integers, as in Python). Compared
against the inline check `nearLimitCheck` taken from the source. -/
def isNearLimit (callsMade maxCalls reserve : Int) : Bool :=
  decide (maxCalls - reserve ≤ callsMade)

/-- The `COUNTRIES` dict of both scripts. -/
def COUNTRIES (name : String) : String :=
  if name = "Colombia" then "170"
  else if name = "China" then "156"
  else if name = "World" then "0"
  else if name = "Chile" then "152"
  else if name = "Peru" then "604"
  else if name = "Brazil" then "076"
  else if name = "Argentina" then "032"
  else if name = "Ecuador" then "218"
  else ""

/-- `download_year` of `04_download_comtrade.py` (lines 45‑73), in
worker form over the event list. Each `requests.get` call consumes one
event. On an exception inside `requests.get` (`netErr`) the increment on
line 61 is never reached, so the counter is unchanged; on any response
the counter is incremented, then: 200 with a non-empty `data` array
returns the rows, 200 otherwise (missing/empty `data`, or `.json()`
raising into the bare `except`) returns nothing, 429 sleeps and
recursively re-issues the identical request, and any other status falls
through to `return None`. An exhausted event list means the world offers
no further round-trip: nothing is issued and nothing is returned. -/
def download_year_aux (req : FetchRequest) :
    List HttpEvent → Nat → List FetchRequest → Option (List Row) × WorldState
  | [], c, t => (none, ⟨[], c, t⟩)
  | HttpEvent.netErr :: rest, c, t => (none, ⟨rest, c, t ++ [req]⟩)
  | HttpEvent.resp code body :: rest, c, t =>
    if code = 200 then
      match body with
      | JsonBody.withData rows =>
        if 0 < rows.length then (some rows, ⟨rest, c + 1, t ++ [req]⟩)
        else (none, ⟨rest, c + 1, t ++ [req]⟩)
      | _ => (none, ⟨rest, c + 1, t ++ [req]⟩)
    else if code = 429 then
      download_year_aux req rest (c + 1) (t ++ [req])
    else
      (none, ⟨rest, c + 1, t ++ [req]⟩)

/-- `download_year` on a `WorldState`. -/
def download_year (req : FetchRequest) (s : WorldState) :
    Option (List Row) × WorldState :=
  download_year_aux req s.events s.counter s.trace

/-- `range(start_year, end_year + 1)` of the dataset loop. -/
def yearsRange (startYear endYear : Nat) : List Nat :=
  List.range' startYear (endYear + 1 - startYear)

/-- The `for year in range(...)` loop body of `download_dataset`
(lines 79‑86 of `04_...`): fetch the year, append the DataFrame if one
was returned, then (after the pacing sleep) break if
`call_counter >= max_calls - 50`. -/
def datasetLoop (rp pt fl cd : String) :
    List Nat → WorldState → List (List Row) → List (List Row) × WorldState
  | [], s, acc => (acc, s)
  | y :: rest, s, acc =>
    let res := download_year ⟨rp, pt, y, fl, cd⟩ s
    let acc' := match res.1 with
      | some rows => acc ++ [rows]
      | none => acc
    if nearLimitCheck res.2.counter then (acc', res.2)
    else datasetLoop rp pt fl cd rest res.2 acc'

/-- `download_dataset` of `04_download_comtrade.py` (lines 75‑90):
run the year loop with an empty accumulator and return
`pd.concat(all_data)` if any DataFrame was collected, else `None`. -/
def download_dataset (rp pt : String) (startYear endYear : Nat)
    (fl cd : String) (s : WorldState) : Option (List Row) × WorldState :=
  let res := datasetLoop rp pt fl cd (yearsRange startYear endYear) s []
  (if res.1.isEmpty then none else some res.1.flatten, res.2)

/-- `df['partner_country'] = country_name` applied to one row. -/
def setPartner (name : String) (r : Row) : Row := ⟨r.payload, some name⟩

/-- The fixed partner list of the LAC loop in `main`. -/
def lacPartners : List String := ["Chile", "Peru", "Brazil", "Argentina", "Ecuador"]

/-- The `for country_name in [...]` loop of `main` (lines 129‑135 of
`04_...`): one dataset run per partner, tagging every row of a non-`None`
result with the partner's name before appending it. -/
def lacLoop : List String → WorldState → List (List Row) → List (List Row) × WorldState
  | [], s, acc => (acc, s)
  | name :: rest, s, acc =>
    let res := download_dataset (COUNTRIES "China") (COUNTRIES name) 1992 2023 "X" "AG6" s
    match res.1 with
    | some rows => lacLoop rest res.2 (acc ++ [rows.map (setPartner name)])
    | none => lacLoop rest res.2 acc

/-- What a run of `main` produces: the files handed to the sink (base
name and rows, in write order), whether `sys.exit(0)` cut the campaign
short, and the final world state. -/
structure CampaignResult where
  written : List (String × List Row)
  exitedEarly : Bool
  state : WorldState
deriving DecidableEq, Repr

/-- `main` of `04_download_comtrade.py` (lines 92‑148), printing and
timing elided: the four dataset runs in order, each non-`None` result
written, with the single quota check (and `sys.exit(0)`) between the
second and third runs. -/
def mainRun (s0 : WorldState) : CampaignResult :=
  let r1 := download_dataset (COUNTRIES "Colombia") (COUNTRIES "China") 1992 2023 "M" "AG6" s0
  let w1 := match r1.1 with
    | some rows => [("colombia_imports_from_china_HS6.csv", rows)]
    | none => []
  let r2 := download_dataset (COUNTRIES "Colombia") (COUNTRIES "World") 1992 2023 "M" "AG6" r1.2
  let w2 := match r2.1 with
    | some rows => [("colombia_imports_from_world_HS6.csv", rows)]
    | none => []
  if nearLimitCheck r2.2.counter then
    ⟨w1 ++ w2, true, r2.2⟩
  else
    let r3 := download_dataset (COUNTRIES "Colombia") (COUNTRIES "World") 1992 2023 "X" "AG6" r2.2
    let w3 := match r3.1 with
      | some rows => [("colombia_exports_to_world_HS6.csv", rows)]
      | none => []
    let lac := lacLoop lacPartners r3.2 []
    let w4 := if lac.1.isEmpty then []
      else [("china_exports_to_lac_HS6.csv", lac.1.flatten)]
    ⟨w1 ++ w2 ++ w3 ++ w4, false, lac.2⟩

/-- `download_year` of `05_download_comtrade.py` (lines 44‑72), embedded
separately so the two files can be compared: the body is translated from
`05_...`, not shared with the `04_...` embedding. -/
def download_year05_aux (req : FetchRequest) :
    List HttpEvent → Nat → List FetchRequest → Option (List Row) × WorldState
  | [], c, t => (none, ⟨[], c, t⟩)
  | HttpEvent.netErr :: rest, c, t => (none, ⟨rest, c, t ++ [req]⟩)
  | HttpEvent.resp code body :: rest, c, t =>
    if code = 200 then
      match body with
      | JsonBody.withData rows =>
        if 0 < rows.length then (some rows, ⟨rest, c + 1, t ++ [req]⟩)
        else (none, ⟨rest, c + 1, t ++ [req]⟩)
      | _ => (none, ⟨rest, c + 1, t ++ [req]⟩)
    else if code = 429 then
      download_year05_aux req rest (c + 1) (t ++ [req])
    else
      (none, ⟨rest, c + 1, t ++ [req]⟩)

/-- `download_year` of `05_...` on a `WorldState`. -/
def download_year05 (req : FetchRequest) (s : WorldState) :
    Option (List Row) × WorldState :=
  download_year05_aux req s.events s.counter s.trace

/-- The year loop of `download_dataset` in `05_...` (lines 78‑85). -/
def datasetLoop05 (rp pt fl cd : String) :
    List Nat → WorldState → List (List Row) → List (List Row) × WorldState
  | [], s, acc => (acc, s)
  | y :: rest, s, acc =>
    let res := download_year05 ⟨rp, pt, y, fl, cd⟩ s
    let acc' := match res.1 with
      | some rows => acc ++ [rows]
      | none => acc
    if nearLimitCheck res.2.counter then (acc', res.2)
    else datasetLoop05 rp pt fl cd rest res.2 acc'

/-- `download_dataset` of `05_download_comtrade.py` (lines 74‑89). -/
def download_dataset05 (rp pt : String) (startYear endYear : Nat)
    (fl cd : String) (s : WorldState) : Option (List Row) × WorldState :=
  let res := datasetLoop05 rp pt fl cd (yearsRange startYear endYear) s []
  (if res.1.isEmpty then none else some res.1.flatten, res.2)

/-- The LAC loop of `main` in `05_...` (lines 117‑123). -/
def lacLoop05 : List String → WorldState → List (List Row) → List (List Row) × WorldState
  | [], s, acc => (acc, s)
  | name :: rest, s, acc =>
    let res := download_dataset05 (COUNTRIES "China") (COUNTRIES name) 1992 2023 "X" "AG6" s
    match res.1 with
    | some rows => lacLoop05 rest res.2 (acc ++ [rows.map (setPartner name)])
    | none => lacLoop05 rest res.2 acc

/-- `main` of `05_download_comtrade.py` (lines 91‑127): same dataset
sequence, writes and quota check as `04_...`, with no printing at all. -/
def mainRun05 (s0 : WorldState) : CampaignResult :=
  let r1 := download_dataset05 (COUNTRIES "Colombia") (COUNTRIES "China") 1992 2023 "M" "AG6" s0
  let w1 := match r1.1 with
    | some rows => [("colombia_imports_from_china_HS6.csv", rows)]
    | none => []
  let r2 := download_dataset05 (COUNTRIES "Colombia") (COUNTRIES "World") 1992 2023 "M" "AG6" r1.2
  let w2 := match r2.1 with
    | some rows => [("colombia_imports_from_world_HS6.csv", rows)]
    | none => []
  if nearLimitCheck r2.2.counter then
    ⟨w1 ++ w2, true, r2.2⟩
  else
    let r3 := download_dataset05 (COUNTRIES "Colombia") (COUNTRIES "World") 1992 2023 "X" "AG6" r2.2
    let w3 := match r3.1 with
      | some rows => [("colombia_exports_to_world_HS6.csv", rows)]
      | none => []
    let lac := lacLoop05 lacPartners r3.2 []
    let w4 := if lac.1.isEmpty then []
      else [("china_exports_to_lac_HS6.csv", lac.1.flatten)]
    ⟨w1 ++ w2 ++ w3 ++ w4, false, lac.2⟩

/-! ## Helper lemmas -/

/-- A run of `download_year_aux` consumes a prefix of `k` events
(`k ≥ 1` whenever any event is available), issues exactly `k` copies of
its request, and bumps the counter once per consumed event that was a
response. -/
theorem download_year_aux_consumed (req : FetchRequest) (events : List HttpEvent)
    (c : Nat) (t : List FetchRequest) :
    ∃ k, k ≤ events.length ∧ (events ≠ [] → 1 ≤ k) ∧
      (download_year_aux req events c t).2.events = events.drop k ∧
      (download_year_aux req events c t).2.counter = c + countResp (events.take k) ∧
      (download_year_aux req events c t).2.trace = t ++ List.replicate k req := by
  induction events generalizing c t with
  | nil =>
    exact ⟨0, by simp [download_year_aux, countResp]⟩
  | cons e rest ih =>
    cases e with
    | netErr =>
      exact ⟨1, by simp [download_year_aux, countResp]⟩
    | resp code body =>
      by_cases h200 : code = 200
      · subst h200
        cases body with
        | withData rows =>
          by_cases hlen : 0 < rows.length
          · exact ⟨1, by simp [download_year_aux, countResp, hlen]⟩
          · exact ⟨1, by simp [download_year_aux, countResp, hlen]⟩
        | parseError => exact ⟨1, by simp [download_year_aux, countResp]⟩
        | noData => exact ⟨1, by simp [download_year_aux, countResp]⟩
      · by_cases h429 : code = 429
        · subst h429
          obtain ⟨k, hk, _, he, hc, ht⟩ := ih (c + 1) (t ++ [req])
          refine ⟨k + 1, by simpa using Nat.succ_le_succ hk,
            fun _ => Nat.le_add_left 1 k, ?_, ?_, ?_⟩
          · simpa [download_year_aux] using he
          · have hcr : countResp ((HttpEvent.resp 429 body :: rest).take (k + 1))
                = countResp (rest.take k) + 1 := by
              simp [List.take_succ_cons, countResp]
            rw [hcr]
            have : (download_year_aux req (HttpEvent.resp 429 body :: rest) c t).2.counter
                = (download_year_aux req rest (c + 1) (t ++ [req])).2.counter := by
              simp [download_year_aux]
            rw [this, hc]
            omega
          · have : (download_year_aux req (HttpEvent.resp 429 body :: rest) c t).2.trace
                = (download_year_aux req rest (c + 1) (t ++ [req])).2.trace := by
              simp [download_year_aux]
            rw [this, ht]
            simp [List.replicate_succ, List.append_assoc]
        · exact ⟨1, by simp [download_year_aux, countResp, h200, h429]⟩

/-- `download_year` only hands rows upward when the `data` array was
non-empty, so a returned DataFrame is never empty. -/
theorem download_year_aux_some_ne_nil (req : FetchRequest) (events : List HttpEvent)
    (c : Nat) (t : List FetchRequest) (rows : List Row)
    (h : (download_year_aux req events c t).1 = some rows) : rows ≠ [] := by
  induction events generalizing c t with
  | nil => simp [download_year_aux] at h
  | cons e rest ih =>
    cases e with
    | netErr => simp [download_year_aux] at h
    | resp code body =>
      by_cases h200 : code = 200
      · subst h200
        cases body with
        | withData rs =>
          by_cases hlen : 0 < rs.length
          · have hr : rs = rows := by simpa [download_year_aux, hlen] using h
            subst hr
            exact List.ne_nil_of_length_pos hlen
          · simp [download_year_aux, hlen] at h
        | parseError => simp [download_year_aux] at h
        | noData => simp [download_year_aux] at h
      · by_cases h429 : code = 429
        · subst h429
          exact ih (c + 1) (t ++ [req]) (by simpa [download_year_aux, h200] using h)
        · simp [download_year_aux, h200, h429] at h

/-- The year loop only ever appends to the request trace. -/
theorem datasetLoop_trace_extend (rp pt fl cd : String) (years : List Nat)
    (s : WorldState) (acc : List (List Row)) :
    ∃ t2, (datasetLoop rp pt fl cd years s acc).2.trace = s.trace ++ t2 := by
  induction years generalizing s acc with
  | nil => exact ⟨[], by simp [datasetLoop]⟩
  | cons y rest ih =>
    obtain ⟨k, _, _, _, _, ht⟩ :=
      download_year_aux_consumed ⟨rp, pt, y, fl, cd⟩ s.events s.counter s.trace
    by_cases hb : nearLimitCheck (download_year ⟨rp, pt, y, fl, cd⟩ s).2.counter
    · refine ⟨List.replicate k ⟨rp, pt, y, fl, cd⟩, ?_⟩
      simp only [datasetLoop, hb, if_true]
      simpa [download_year] using ht
    · obtain ⟨t2, ht2⟩ := ih (download_year ⟨rp, pt, y, fl, cd⟩ s).2
        (match (download_year ⟨rp, pt, y, fl, cd⟩ s).1 with
          | some rows => acc ++ [rows]
          | none => acc)
      refine ⟨List.replicate k ⟨rp, pt, y, fl, cd⟩ ++ t2, ?_⟩
      simp only [datasetLoop, hb, if_false, Bool.false_eq_true]
      rw [ht2]
      have : (download_year ⟨rp, pt, y, fl, cd⟩ s).2.trace
          = s.trace ++ List.replicate k ⟨rp, pt, y, fl, cd⟩ := by
        simpa [download_year] using ht
      rw [this, List.append_assoc]

/-- Every DataFrame block held by the year-loop accumulator is
non-empty, provided the initial accumulator's blocks are. -/
theorem datasetLoop_blocks_ne_nil (rp pt fl cd : String) (years : List Nat)
    (s : WorldState) (acc : List (List Row))
    (hacc : ∀ l ∈ acc, l ≠ []) :
    ∀ l ∈ (datasetLoop rp pt fl cd years s acc).1, l ≠ [] := by
  induction years generalizing s acc with
  | nil => simpa [datasetLoop] using hacc
  | cons y rest ih =>
    have hacc' : ∀ l ∈ (match (download_year ⟨rp, pt, y, fl, cd⟩ s).1 with
        | some rows => acc ++ [rows]
        | none => acc), l ≠ [] := by
      cases hdf : (download_year ⟨rp, pt, y, fl, cd⟩ s).1 with
      | none => simpa using hacc
      | some rows =>
        intro l hl
        simp only [List.mem_append, List.mem_singleton] at hl
        rcases hl with hl | hl
        · exact hacc l hl
        · subst hl
          exact download_year_aux_some_ne_nil ⟨rp, pt, y, fl, cd⟩ s.events s.counter s.trace l hdf
    by_cases hb : nearLimitCheck (download_year ⟨rp, pt, y, fl, cd⟩ s).2.counter
    · simpa [datasetLoop, hb] using hacc'
    · simpa [datasetLoop, hb] using ih (download_year ⟨rp, pt, y, fl, cd⟩ s).2 _ hacc'

/-- A non-`None` result of `download_dataset` is a non-empty row list. -/
theorem download_dataset_some_ne_nil (rp pt : String) (a b : Nat)
    (fl cd : String) (s : WorldState) (l : List Row)
    (h : (download_dataset rp pt a b fl cd s).1 = some l) : l ≠ [] := by
  unfold download_dataset at h
  by_cases he : (datasetLoop rp pt fl cd (yearsRange a b) s []).1.isEmpty
  · simp [he] at h
  · simp only [he, if_false, Bool.false_eq_true, Option.some.injEq] at h
    subst h
    have hblocks := datasetLoop_blocks_ne_nil rp pt fl cd (yearsRange a b) s [] (by simp)
    rcases hacc : (datasetLoop rp pt fl cd (yearsRange a b) s []).1 with _ | ⟨blk, blks⟩
    · rw [hacc] at he; simp at he
    · have hblk : blk ≠ [] := hblocks blk (by rw [hacc]; exact List.mem_cons_self _ _)
      simp only [List.flatten_cons, ne_eq, List.append_eq_nil]
      intro hcon
      exact hblk hcon.1

/-- Every block the LAC loop adds to its accumulator is wholly tagged
with the name of the partner whose sub-run produced it. -/
theorem lacLoop_labels (partners : List String) (s : WorldState)
    (acc : List (List Row)) :
    ∀ l ∈ (lacLoop partners s acc).1,
      l ∈ acc ∨ ∃ nm, nm ∈ partners ∧ ∀ r ∈ l, r.partner_country = some nm := by
  induction partners generalizing s acc with
  | nil =>
    intro l hl
    left
    simpa [lacLoop] using hl
  | cons name rest ih =>
    intro l hl
    rw [lacLoop] at hl
    cases hdf : (download_dataset (COUNTRIES "China") (COUNTRIES name)
        1992 2023 "X" "AG6" s).1 with
    | none =>
      rw [hdf] at hl
      rcases ih _ _ l hl with h | ⟨nm, hnm, hr⟩
      · exact Or.inl h
      · exact Or.inr ⟨nm, List.mem_cons_of_mem _ hnm, hr⟩
    | some rows =>
      rw [hdf] at hl
      rcases ih _ _ l hl with h | ⟨nm, hnm, hr⟩
      · simp only [List.mem_append, List.mem_singleton] at h
        rcases h with h | h
        · exact Or.inl h
        · subst h
          refine Or.inr ⟨name, List.mem_cons_self _ _, ?_⟩
          intro r hr
          obtain ⟨r0, _, hr0⟩ := List.mem_map.mp hr
          rw [← hr0]
          rfl
      · exact Or.inr ⟨nm, List.mem_cons_of_mem _ hnm, hr⟩

/-- Every block held by the LAC accumulator is non-empty, provided the
initial accumulator's blocks are. -/
theorem lacLoop_blocks_ne_nil (partners : List String) (s : WorldState)
    (acc : List (List Row)) (hacc : ∀ l ∈ acc, l ≠ []) :
    ∀ l ∈ (lacLoop partners s acc).1, l ≠ [] := by
  induction partners generalizing s acc with
  | nil => simpa [lacLoop] using hacc
  | cons name rest ih =>
    intro l hl
    rw [lacLoop] at hl
    cases hdf : (download_dataset (COUNTRIES "China") (COUNTRIES name)
        1992 2023 "X" "AG6" s).1 with
    | none =>
      rw [hdf] at hl
      exact ih _ _ hacc l hl
    | some rows =>
      rw [hdf] at hl
      refine ih _ _ ?_ l hl
      intro l' hl'
      simp only [List.mem_append, List.mem_singleton] at hl'
      rcases hl' with hl' | hl'
      · exact hacc l' hl'
      · subst hl'
        have hrows : rows ≠ [] :=
          download_dataset_some_ne_nil _ _ _ _ _ _ s rows hdf
        simpa using hrows

/-- A non-empty list of non-empty blocks flattens to a non-empty list. -/
theorem flatten_ne_nil_of_blocks (L : List (List Row)) (hL : ¬L.isEmpty = true)
    (hblocks : ∀ l ∈ L, l ≠ []) : L.flatten ≠ [] := by
  rcases L with _ | ⟨blk, blks⟩
  · simp at hL
  · have hblk : blk ≠ [] := hblocks blk (List.mem_cons_self _ _)
    simp only [List.flatten_cons, ne_eq, List.append_eq_nil]
    intro hcon
    exact hblk hcon.1

/-- Every file `main` hands to the sink carries a non-empty row list. -/
theorem mainRun_written_ne_nil (s0 : WorldState) :
    ∀ e ∈ (mainRun s0).written, e.2 ≠ [] := by
  intro e he
  simp only [mainRun] at he
  set r1 := download_dataset (COUNTRIES "Colombia") (COUNTRIES "China") 1992 2023 "M" "AG6" s0 with hr1
  set r2 := download_dataset (COUNTRIES "Colombia") (COUNTRIES "World") 1992 2023 "M" "AG6" r1.2 with hr2
  clear_value r1
  clear_value r2
  have hw1 : ∀ x ∈ (match r1.1 with
      | some rows => [("colombia_imports_from_china_HS6.csv", rows)]
      | none => ([] : List (String × List Row))), x.2 ≠ [] := by
    cases hdf : r1.1 with
    | none => simp
    | some rows =>
      intro x hx
      simp only [List.mem_singleton] at hx
      subst hx
      exact download_dataset_some_ne_nil _ _ _ _ _ _ s0 rows (hr1 ▸ hdf)
  have hw2 : ∀ x ∈ (match r2.1 with
      | some rows => [("colombia_imports_from_world_HS6.csv", rows)]
      | none => ([] : List (String × List Row))), x.2 ≠ [] := by
    cases hdf : r2.1 with
    | none => simp
    | some rows =>
      intro x hx
      simp only [List.mem_singleton] at hx
      subst hx
      exact download_dataset_some_ne_nil _ _ _ _ _ _ r1.2 rows (hr2 ▸ hdf)
  by_cases hb : nearLimitCheck r2.2.counter
  · rw [if_pos hb] at he
    simp only [List.mem_append] at he
    rcases he with he | he
    · exact hw1 e he
    · exact hw2 e he
  · rw [if_neg hb] at he
    set r3 := download_dataset (COUNTRIES "Colombia") (COUNTRIES "World") 1992 2023 "X" "AG6" r2.2 with hr3
    clear_value r3
    have hw3 : ∀ x ∈ (match r3.1 with
        | some rows => [("colombia_exports_to_world_HS6.csv", rows)]
        | none => ([] : List (String × List Row))), x.2 ≠ [] := by
      cases hdf : r3.1 with
      | none => simp
      | some rows =>
        intro x hx
        simp only [List.mem_singleton] at hx
        subst hx
        exact download_dataset_some_ne_nil _ _ _ _ _ _ r2.2 rows (hr3 ▸ hdf)
    have hlacblocks : ∀ l ∈ (lacLoop lacPartners r3.2 []).1, l ≠ [] :=
      lacLoop_blocks_ne_nil lacPartners r3.2 [] (by simp)
    set lac := lacLoop lacPartners r3.2 [] with hlac
    clear_value lac
    have hw4 : ∀ x ∈ (if lac.1.isEmpty then ([] : List (String × List Row))
        else [("china_exports_to_lac_HS6.csv", lac.1.flatten)]), x.2 ≠ [] := by
      by_cases hemp : lac.1.isEmpty
      · simp [hemp]
      · intro x hx
        simp only [hemp, if_false, Bool.false_eq_true, List.mem_singleton] at hx
        subst hx
        exact flatten_ne_nil_of_blocks lac.1 hemp hlacblocks
    simp only [List.mem_append] at he
    rcases he with ((he | he) | he) | he
    · exact hw1 e he
    · exact hw2 e he
    · exact hw3 e he
    · exact hw4 e he

/-- The single-call fetch of `05_...` computes exactly what the one of
`04_...` computes. -/
theorem download_year05_aux_eq (req : FetchRequest) (events : List HttpEvent)
    (c : Nat) (t : List FetchRequest) :
    download_year05_aux req events c t = download_year_aux req events c t := by
  induction events generalizing c t with
  | nil => rfl
  | cons e rest ih =>
    cases e with
    | netErr => rfl
    | resp code body =>
      by_cases h200 : code = 200
      · subst h200
        simp [download_year05_aux, download_year_aux]
      · by_cases h429 : code = 429
        · subst h429
          simp only [download_year05_aux, download_year_aux, h200, if_false]
          simpa using ih (c + 1) (t ++ [req])
        · simp [download_year05_aux, download_year_aux, h200, h429]

/-- `download_year` agreement on whole states. -/
theorem download_year05_eq (req : FetchRequest) (s : WorldState) :
    download_year05 req s = download_year req s := by
  simp [download_year05, download_year, download_year05_aux_eq]

/-- The year loops of the two files agree. -/
theorem datasetLoop05_eq (rp pt fl cd : String) (years : List Nat)
    (s : WorldState) (acc : List (List Row)) :
    datasetLoop05 rp pt fl cd years s acc = datasetLoop rp pt fl cd years s acc := by
  induction years generalizing s acc with
  | nil => rfl
  | cons y rest ih =>
    simp only [datasetLoop05, datasetLoop, download_year05_eq]
    by_cases hb : nearLimitCheck (download_year ⟨rp, pt, y, fl, cd⟩ s).2.counter
    · simp [hb]
    · simp [hb, ih]

/-- `download_dataset` agreement between the two files. -/
theorem download_dataset05_eq (rp pt : String) (a b : Nat) (fl cd : String)
    (s : WorldState) :
    download_dataset05 rp pt a b fl cd s = download_dataset rp pt a b fl cd s := by
  simp [download_dataset05, download_dataset, datasetLoop05_eq]

/-- The LAC loops of the two files agree. -/
theorem lacLoop05_eq (partners : List String) (s : WorldState)
    (acc : List (List Row)) :
    lacLoop05 partners s acc = lacLoop partners s acc := by
  induction partners generalizing s acc with
  | nil => rfl
  | cons name rest ih =>
    simp only [lacLoop05, lacLoop, download_dataset05_eq]
    cases hdf : (download_dataset (COUNTRIES "China") (COUNTRIES name)
        1992 2023 "X" "AG6" s).1 with
    | none => simp [hdf, ih]
    | some rows => simp [hdf, ih]

/-- The two `main`s agree. -/
theorem mainRun05_eq (s0 : WorldState) : mainRun05 s0 = mainRun s0 := by
  simp only [mainRun05, mainRun, download_dataset05_eq, lacLoop05_eq]

/-- `range(a, b + 1)` is strictly ascending. -/
theorem yearsRange_ascending (a b : Nat) : List.Pairwise (· < ·) (yearsRange a b) := by
  simpa [yearsRange] using List.pairwise_lt_range' a (b + 1 - a) 1

/-- The name attached to a conditional write is fixed by the branch. -/
theorem written_entry_name (nm : String) (o : Option (List Row)) :
    ∀ x ∈ ((match o with
      | some rows => [(nm, rows)]
      | none => []) : List (String × List Row)), x.1 = nm := by
  cases o with
  | none => simp
  | some rows =>
    intro x hx
    simp only [List.mem_singleton] at hx
    subst hx
    rfl

/-- `n` consecutive 429 responses followed by a 200 with rows resolve to
those rows, with one increment per response and one (identical) request
issued per round-trip. -/
theorem download_year_aux_throttle_chain (req : FetchRequest) (rows : List Row)
    (hrows : rows ≠ []) : ∀ (n c : Nat) (t : List FetchRequest),
    download_year_aux req (List.replicate n (HttpEvent.resp 429 JsonBody.noData)
        ++ [HttpEvent.resp 200 (JsonBody.withData rows)]) c t
      = (some rows, ⟨[], c + n + 1, t ++ List.replicate (n + 1) req⟩) := by
  intro n
  induction n with
  | zero =>
    intro c t
    simp [download_year_aux, List.length_pos.mpr hrows]
  | succ m ih =>
    intro c t
    have hstep : download_year_aux req
        (List.replicate (m + 1) (HttpEvent.resp 429 JsonBody.noData)
          ++ [HttpEvent.resp 200 (JsonBody.withData rows)]) c t
        = download_year_aux req
          (List.replicate m (HttpEvent.resp 429 JsonBody.noData)
            ++ [HttpEvent.resp 200 (JsonBody.withData rows)]) (c + 1) (t ++ [req]) := by
      simp [List.replicate_succ, download_year_aux]
    rw [hstep, ih]
    have hc : c + 1 + m + 1 = c + (m + 1) + 1 := by omega
    have ht : (t ++ [req]) ++ List.replicate (m + 1) req
        = t ++ List.replicate (m + 1 + 1) req := by
      rw [List.append_assoc]
      congr 1
    simp only [ht, hc]

/-! ## Claim theorems -/

/-- C1 (counterexample to the claim as stated): with a single attempted
round-trip that ends in a network error/timeout (the `requests.get` call
raises), the request is issued — the trace records exactly one attempt —
yet `call_counter` is 0, not 1: the increment on line 61 sits after
`requests.get`, so an attempt that raises in transport never reaches it. -/
theorem C1_counterexample :
    ((download_year ⟨"170", "156", 1992, "M", "AG6"⟩
        ⟨[HttpEvent.netErr], 0, []⟩).2).trace.length = 1 ∧
    ((download_year ⟨"170", "156", 1992, "M", "AG6"⟩
        ⟨[HttpEvent.netErr], 0, []⟩).2).counter = 0 := by
  decide

/-- C1 (amended): a single-call fetch consumes some number `k` of HTTP
round-trips, issues exactly `k` requests, and increments `call_counter`
once per round-trip that returned an HTTP response (success, empty,
throttled, non-200 status, or 200 with a parse failure); round-trips
aborted by a transport exception before any response (network error,
timeout) do not increment it. So the counter grows by the number of
response-bearing round-trips, not by the number of attempts. -/
theorem C1_quota_per_response (req : FetchRequest) (events : List HttpEvent)
    (c : Nat) (t : List FetchRequest) :
    ∃ k, k ≤ events.length ∧
      ((download_year_aux req events c t).2).events = events.drop k ∧
      ((download_year_aux req events c t).2).trace = t ++ List.replicate k req ∧
      ((download_year_aux req events c t).2).counter = c + countResp (events.take k) := by
  obtain ⟨k, h1, _, h3, h4, h5⟩ := download_year_aux_consumed req events c t
  exact ⟨k, h1, h3, h5, h4⟩

/-- C5: the near-limit predicate is the boolean of
`callsMade >= maxCalls - reserve`; with maxCalls=500, reserve=50 it is
false at 449 and true at 450; and the source's inline check
`call_counter >= max_calls - 50` computes exactly
`isNearLimit(call_counter, 500, 50)`. -/
theorem C5_near_limit_boundary :
    (∀ callsMade maxCalls reserve : Int,
        isNearLimit callsMade maxCalls reserve
          = decide (maxCalls - reserve ≤ callsMade)) ∧
    isNearLimit 449 500 50 = false ∧
    isNearLimit 450 500 50 = true ∧
    (∀ n : Nat, nearLimitCheck n = isNearLimit n 500 50) := by
  refine ⟨fun _ _ _ => rfl, by decide, by decide, ?_⟩
  intro n
  simp only [nearLimitCheck, isNearLimit, max_calls, decide_eq_decide]
  omega

/-- C6: year-range aggregation visits years in ascending order; in the
spec's [1992,1994] scenario (Success in 1992 and 1994, Empty in 1993) the
result is exactly 1992's rows followed by 1994's rows, with no
placeholder for 1993 — and the same holds when 1993 instead Fails with a
non-200 status. -/
theorem C6_ascending_concat :
    (∀ a b : Nat, List.Pairwise (· < ·) (yearsRange a b)) ∧
    download_dataset "170" "156" 1992 1994 "M" "AG6"
      ⟨[HttpEvent.resp 200 (JsonBody.withData [mkRow 1, mkRow 2]),
        HttpEvent.resp 200 (JsonBody.withData []),
        HttpEvent.resp 200 (JsonBody.withData [mkRow 3])], 0, []⟩
      = (some [mkRow 1, mkRow 2, mkRow 3],
         ⟨[], 3, [⟨"170", "156", 1992, "M", "AG6"⟩,
                  ⟨"170", "156", 1993, "M", "AG6"⟩,
                  ⟨"170", "156", 1994, "M", "AG6"⟩]⟩) ∧
    download_dataset "170" "156" 1992 1994 "M" "AG6"
      ⟨[HttpEvent.resp 200 (JsonBody.withData [mkRow 1, mkRow 2]),
        HttpEvent.resp 500 JsonBody.noData,
        HttpEvent.resp 200 (JsonBody.withData [mkRow 3])], 0, []⟩
      = (some [mkRow 1, mkRow 2, mkRow 3],
         ⟨[], 3, [⟨"170", "156", 1992, "M", "AG6"⟩,
                  ⟨"170", "156", 1993, "M", "AG6"⟩,
                  ⟨"170", "156", 1994, "M", "AG6"⟩]⟩) := by
  exact ⟨yearsRange_ascending, by decide, by decide⟩

/-- C8: the multi-partner loop labels every row of a partner's sub-run
with that partner's name (no block escapes unlabeled or mislabeled), and
in a concrete two-partner run the blocks appear in partner order, each
wholly tagged with its own partner. -/
theorem C8_partner_labels :
    (∀ (partners : List String) (s : WorldState) (acc : List (List Row)),
        ∀ l ∈ (lacLoop partners s acc).1,
          l ∈ acc ∨ ∃ nm, nm ∈ partners ∧ ∀ r ∈ l, r.partner_country = some nm) ∧
    lacLoop ["Chile", "Peru"]
      ⟨[HttpEvent.resp 200 (JsonBody.withData [mkRow 1]),
        HttpEvent.resp 200 (JsonBody.withData [mkRow 2])], 449, []⟩ []
      = ([[⟨1, some "Chile"⟩], [⟨2, some "Peru"⟩]],
         ⟨[], 451, [⟨"156", "152", 1992, "X", "AG6"⟩,
                    ⟨"156", "604", 1992, "X", "AG6"⟩]⟩) := by
  exact ⟨lacLoop_labels, by decide⟩

/-- C9: the two entry-point files are extensionally the same
orchestration: their `download_year`s agree on every request and world
state, their `download_dataset`s agree on every input, and even their
`main`s produce identical campaign results — the remaining differences
(printing, timing) are outside the computation. -/
theorem C9_duplicate_entry_points :
    (∀ (req : FetchRequest) (s : WorldState),
        download_year05 req s = download_year req s) ∧
    (∀ (rp pt : String) (a b : Nat) (fl cd : String) (s : WorldState),
        download_dataset05 rp pt a b fl cd s = download_dataset rp pt a b fl cd s) ∧
    (∀ s0 : WorldState, mainRun05 s0 = mainRun s0) :=
  ⟨download_year05_eq, download_dataset05_eq, mainRun05_eq⟩

/-- C3: on HTTP 429 the fetch re-issues the identical request (the
recursive call differs only in having consumed the throttled response
and counted it); any number `n` of consecutive throttles followed by a
success resolves to that success, with `n + 1` counter increments and
`n + 1` identical requests issued (no retry cap); and in the spec's
throttled-then-success scenario the year loop receives the Success rows
for that year with exactly 2 increments. -/
theorem C3_throttle_retry (req : FetchRequest) (body : JsonBody)
    (evs : List HttpEvent) (c : Nat) (t : List FetchRequest)
    (n : Nat) (rows : List Row) (rp pt fl cd : String) (y : Nat)
    (acc : List (List Row)) (hrows : rows ≠ []) :
    (download_year_aux req (HttpEvent.resp 429 body :: evs) c t
      = download_year_aux req evs (c + 1) (t ++ [req])) ∧
    (download_year_aux req (List.replicate n (HttpEvent.resp 429 JsonBody.noData)
        ++ [HttpEvent.resp 200 (JsonBody.withData rows)]) c t
      = (some rows, ⟨[], c + n + 1, t ++ List.replicate (n + 1) req⟩)) ∧
    (datasetLoop rp pt fl cd [y]
        ⟨[HttpEvent.resp 429 JsonBody.noData,
          HttpEvent.resp 200 (JsonBody.withData rows)], c, t⟩ acc
      = (acc ++ [rows],
         ⟨[], c + 2, t ++ [⟨rp, pt, y, fl, cd⟩, ⟨rp, pt, y, fl, cd⟩]⟩)) := by
  refine ⟨by simp [download_year_aux], download_year_aux_throttle_chain req rows hrows n c t, ?_⟩
  have hone : download_year ⟨rp, pt, y, fl, cd⟩
      ⟨[HttpEvent.resp 429 JsonBody.noData,
        HttpEvent.resp 200 (JsonBody.withData rows)], c, t⟩
      = (some rows, ⟨[], c + 2, t ++ [⟨rp, pt, y, fl, cd⟩, ⟨rp, pt, y, fl, cd⟩]⟩) := by
    have := download_year_aux_throttle_chain ⟨rp, pt, y, fl, cd⟩ rows hrows 1 c t
    simpa [download_year, List.replicate_succ] using this
  simp only [datasetLoop, hone]
  simp [datasetLoop]

/-- C3 witness. -/
theorem C3_throttle_retry_witness :
    ([mkRow 5] : List Row) ≠ [] ∧
    ((download_year_aux ⟨"170", "156", 1992, "M", "AG6"⟩
        (HttpEvent.resp 429 JsonBody.noData :: []) 0 []
      = download_year_aux ⟨"170", "156", 1992, "M", "AG6"⟩ [] (0 + 1)
          ([] ++ [⟨"170", "156", 1992, "M", "AG6"⟩])) ∧
    (download_year_aux ⟨"170", "156", 1992, "M", "AG6"⟩
        (List.replicate 1 (HttpEvent.resp 429 JsonBody.noData)
          ++ [HttpEvent.resp 200 (JsonBody.withData [mkRow 5])]) 0 []
      = (some [mkRow 5],
         ⟨[], 0 + 1 + 1, [] ++ List.replicate (1 + 1) ⟨"170", "156", 1992, "M", "AG6"⟩⟩)) ∧
    (datasetLoop "170" "156" "M" "AG6" [1992]
        ⟨[HttpEvent.resp 429 JsonBody.noData,
          HttpEvent.resp 200 (JsonBody.withData [mkRow 5])], 0, []⟩ []
      = ([] ++ [[mkRow 5]],
         ⟨[], 0 + 2, [] ++ [⟨"170", "156", 1992, "M", "AG6"⟩,
                            ⟨"170", "156", 1992, "M", "AG6"⟩]⟩))) :=
  ⟨by decide,
   C3_throttle_retry ⟨"170", "156", 1992, "M", "AG6"⟩ JsonBody.noData [] 0 [] 1
     [mkRow 5] "170" "156" "M" "AG6" 1992 [] (by decide)⟩

/-- C4: once the quota check is true after a year's attempt, the year
loop stops at once: running it on `y :: rest` is the same as running it
on `[y]` alone, and the final trace is exactly the trace after year
`y`'s fetch — no request is ever issued for any year of `rest`. -/
theorem C4_early_termination (rp pt fl cd : String) (y : Nat) (rest : List Nat)
    (s : WorldState) (acc : List (List Row))
    (h : nearLimitCheck ((download_year ⟨rp, pt, y, fl, cd⟩ s).2).counter = true) :
    datasetLoop rp pt fl cd (y :: rest) s acc = datasetLoop rp pt fl cd [y] s acc ∧
    ((datasetLoop rp pt fl cd (y :: rest) s acc).2).trace
      = ((download_year ⟨rp, pt, y, fl, cd⟩ s).2).trace := by
  constructor
  · simp [datasetLoop, h]
  · simp [datasetLoop, h]

/-- C4 witness. -/
theorem C4_early_termination_witness :
    nearLimitCheck ((download_year ⟨"170", "156", 1993, "M", "AG6"⟩
        ⟨[], 450, []⟩).2).counter = true ∧
    (datasetLoop "170" "156" "M" "AG6" [1993, 1994, 1995, 1996]
        ⟨[], 450, []⟩ [] = datasetLoop "170" "156" "M" "AG6" [1993] ⟨[], 450, []⟩ [] ∧
     ((datasetLoop "170" "156" "M" "AG6" [1993, 1994, 1995, 1996]
        ⟨[], 450, []⟩ []).2).trace
       = ((download_year ⟨"170", "156", 1993, "M", "AG6"⟩ ⟨[], 450, []⟩).2).trace) :=
  ⟨by decide, C4_early_termination "170" "156" "M" "AG6" 1993 [1994, 1995, 1996]
      ⟨[], 450, []⟩ [] (by decide)⟩

/-- C7: a dataset result is absent exactly when no year contributed a
block of rows; a present result is never empty (every collected block is
non-empty because Success requires a non-empty data array); and every
file `main` hands to the sink carries a non-empty row list. -/
theorem C7_absent_iff_no_success (rp pt : String) (a b : Nat) (fl cd : String)
    (s : WorldState) :
    ((download_dataset rp pt a b fl cd s).1 = none
      ↔ (datasetLoop rp pt fl cd (yearsRange a b) s []).1 = []) ∧
    (∀ l, (download_dataset rp pt a b fl cd s).1 = some l → l ≠ []) ∧
    (∀ e ∈ (mainRun s).written, e.2 ≠ []) := by
  refine ⟨?_, fun l h => download_dataset_some_ne_nil rp pt a b fl cd s l h,
    mainRun_written_ne_nil s⟩
  unfold download_dataset
  by_cases he : (datasetLoop rp pt fl cd (yearsRange a b) s []).1.isEmpty
  · simp [he, List.isEmpty_iff.mp he]
  · have hne : (datasetLoop rp pt fl cd (yearsRange a b) s []).1 ≠ [] := by
      simpa [List.isEmpty_iff] using he
    simp [he, hne]

/-- C10: for a non-empty year range and any starting counter value —
including values at or past the quota threshold — `download_dataset`
issues the fetch for the first year before any quota check runs: the
first request of the run is the one for `startYear`, unconditionally. -/
theorem C10_fetch_before_check (rp pt : String) (a b : Nat) (fl cd : String)
    (s : WorldState) (hab : a ≤ b) (hev : s.events ≠ []) :
    ∃ tail, ((download_dataset rp pt a b fl cd s).2).trace
      = s.trace ++ FetchRequest.mk rp pt a fl cd :: tail := by
  have hyears : yearsRange a b = a :: List.range' (a + 1) (b - a) := by
    unfold yearsRange
    have hn : b + 1 - a = (b - a) + 1 := by omega
    rw [hn, List.range'_succ]
  simp only [download_dataset, hyears]
  obtain ⟨k, _, hkpos, _, _, ht⟩ :=
    download_year_aux_consumed ⟨rp, pt, a, fl, cd⟩ s.events s.counter s.trace
  have hk1 : 1 ≤ k := hkpos hev
  obtain ⟨k', rfl⟩ : ∃ k', k = k' + 1 := ⟨k - 1, by omega⟩
  have htrace : ((download_year ⟨rp, pt, a, fl, cd⟩ s).2).trace
      = s.trace ++ (⟨rp, pt, a, fl, cd⟩ : FetchRequest)
          :: List.replicate k' ⟨rp, pt, a, fl, cd⟩ := by
    simpa [download_year, List.replicate_succ] using ht
  by_cases hb2 : nearLimitCheck ((download_year ⟨rp, pt, a, fl, cd⟩ s).2).counter
  · refine ⟨List.replicate k' ⟨rp, pt, a, fl, cd⟩, ?_⟩
    simp only [datasetLoop, hb2, if_true]
    exact htrace
  · obtain ⟨t2, ht2⟩ := datasetLoop_trace_extend rp pt fl cd
      (List.range' (a + 1) (b - a)) (download_year ⟨rp, pt, a, fl, cd⟩ s).2
      (match (download_year ⟨rp, pt, a, fl, cd⟩ s).1 with
        | some rows => [] ++ [rows]
        | none => [])
    refine ⟨List.replicate k' ⟨rp, pt, a, fl, cd⟩ ++ t2, ?_⟩
    simp only [datasetLoop, hb2, if_false, Bool.false_eq_true]
    rw [ht2, htrace]
    simp [List.append_assoc]

/-- C10 witness: even with the counter far past the limit (1000), the
first year's request is still issued. -/
theorem C10_fetch_before_check_witness :
    (1992 : Nat) ≤ 1992 ∧
    (⟨[HttpEvent.netErr], 1000, []⟩ : WorldState).events ≠ [] ∧
    ∃ tail, ((download_dataset "170" "156" 1992 1992 "M" "AG6"
        ⟨[HttpEvent.netErr], 1000, []⟩).2).trace
      = (⟨[HttpEvent.netErr], 1000, []⟩ : WorldState).trace
          ++ FetchRequest.mk "170" "156" 1992 "M" "AG6" :: tail :=
  ⟨by decide, by decide,
   C10_fetch_before_check "170" "156" 1992 1992 "M" "AG6"
     ⟨[HttpEvent.netErr], 1000, []⟩ (by decide) (by decide)⟩

set_option maxRecDepth 100000 in
/-- C2 (counterexample to the claim as stated): a world in which the
first dataset run alone exhausts the quota (450 throttled responses on
its first year, then a transport error) makes the near-limit check true
already after run 1 — yet the driver still issues a round-trip for the
second dataset (reporter Colombia, partner World, year 1992 appears in
the trace): there is no check after the first run, only after the
second. -/
theorem C2_counterexample :
    nearLimitCheck ((download_dataset (COUNTRIES "Colombia") (COUNTRIES "China")
        1992 2023 "M" "AG6"
        ⟨List.replicate 450 (HttpEvent.resp 429 JsonBody.noData)
          ++ [HttpEvent.netErr, HttpEvent.netErr], 0, []⟩).2).counter = true ∧
    FetchRequest.mk (COUNTRIES "Colombia") (COUNTRIES "World") 1992 "M" "AG6" ∈
      (mainRun ⟨List.replicate 450 (HttpEvent.resp 429 JsonBody.noData)
          ++ [HttpEvent.netErr, HttpEvent.netErr], 0, []⟩).state.trace := by
  decide

/-- C2 (amended): the driver sequences the four dataset runs in a fixed
order and consults the quota near-limit check once, after the second
run; if it is true, it exits with success status (`sys.exit(0)`): the
state is left exactly as it was after run 2 (no further round-trip for
datasets 3 and 4) and only the first two files can have been written. -/
theorem C2_single_check_after_second_run (s0 : WorldState)
    (h : nearLimitCheck ((download_dataset (COUNTRIES "Colombia") (COUNTRIES "World")
        1992 2023 "M" "AG6"
        ((download_dataset (COUNTRIES "Colombia") (COUNTRIES "China")
          1992 2023 "M" "AG6" s0).2)).2).counter = true) :
    (mainRun s0).exitedEarly = true ∧
    (mainRun s0).state = (download_dataset (COUNTRIES "Colombia") (COUNTRIES "World")
        1992 2023 "M" "AG6"
        ((download_dataset (COUNTRIES "Colombia") (COUNTRIES "China")
          1992 2023 "M" "AG6" s0).2)).2 ∧
    ∀ e ∈ (mainRun s0).written,
      e.1 = "colombia_imports_from_china_HS6.csv" ∨
      e.1 = "colombia_imports_from_world_HS6.csv" := by
  refine ⟨?_, ?_, ?_⟩
  · simp only [mainRun]
    rw [if_pos h]
  · simp only [mainRun]
    rw [if_pos h]
  · intro e he
    simp only [mainRun] at he
    rw [if_pos h] at he
    simp only [List.mem_append] at he
    rcases he with he | he
    · exact Or.inl (written_entry_name _ _ e he)
    · exact Or.inr (written_entry_name _ _ e he)

/-- C2 witness: with no events left and the counter already at 450, the
check after run 2 is true and the driver exits early. -/
theorem C2_single_check_witness :
    nearLimitCheck ((download_dataset (COUNTRIES "Colombia") (COUNTRIES "World")
        1992 2023 "M" "AG6"
        ((download_dataset (COUNTRIES "Colombia") (COUNTRIES "China")
          1992 2023 "M" "AG6" ⟨[], 450, []⟩).2)).2).counter = true ∧
    ((mainRun ⟨[], 450, []⟩).exitedEarly = true ∧
     (mainRun ⟨[], 450, []⟩).state
       = (download_dataset (COUNTRIES "Colombia") (COUNTRIES "World")
          1992 2023 "M" "AG6"
          ((download_dataset (COUNTRIES "Colombia") (COUNTRIES "China")
            1992 2023 "M" "AG6" ⟨[], 450, []⟩).2)).2 ∧
     ∀ e ∈ (mainRun ⟨[], 450, []⟩).written,
       e.1 = "colombia_imports_from_china_HS6.csv" ∨
       e.1 = "colombia_imports_from_world_HS6.csv") :=
  ⟨by decide, C2_single_check_after_second_run ⟨[], 450, []⟩ (by decide)⟩
